import Mathlib

/-!
Shallow embedding of `staged.py`, the ASF staging/live web-site pubsub deployer.

Strings are modelled as `List Char` so that the Python string operations
(`startswith`, `replace`, `os.path.split`, `os.path.join`, `os.path.normpath`,
the two character-class regexes) can be given executable, faithful definitions
and reasoned about by structural induction.
-/

namespace Staged

/-- Python strings, modelled as lists of characters. -/
abbrev PyStr := List Char

/-- Convert a Lean string literal to the `PyStr` model. -/
def pl (s : String) : PyStr := s.toList

/-- Python `s.startswith(pre)`. -/
def startswith (s pre : PyStr) : Bool := pre.isPrefixOf s

/-- Index of the last `'/'` in a string, if any (Python `p.rfind('/')`). -/
def rfindSlash : PyStr → Option Nat
  | [] => none
  | c :: rest =>
    match rfindSlash rest with
    | some n => some (n + 1)
    | none => if c = '/' then some 0 else none

/-- `p.rfind('/') + 1`, the split point used by `posixpath.split`. -/
def splitPoint (p : PyStr) : Nat :=
  match rfindSlash p with
  | some n => n + 1
  | none => 0

/-- Whether a string consists only of `'/'` characters (`head == sep*len(head)`). -/
def allSlashes (h : PyStr) : Bool := h.all (fun c => c = '/')

/-- Python `h.rstrip('/')`. -/
def rstripSlashes (h : PyStr) : PyStr := (h.reverse.dropWhile (fun c => c = '/')).reverse

/-- `os.path.split` (posixpath): split at the last `'/'`; the head keeps its
trailing slashes stripped unless it is all slashes. -/
def pysplit (p : PyStr) : PyStr × PyStr :=
  let i := splitPoint p
  let head := p.take i
  let tail := p.drop i
  (if head ≠ [] ∧ allSlashes head = false then rstripSlashes head else head, tail)

/-- `os.path.join(a, b)` (posixpath, two arguments): an absolute second
component discards the first. -/
def pyjoin (a b : PyStr) : PyStr :=
  if startswith b (pl "/") then b
  else if a = [] ∨ a.getLast? = some '/' then a ++ b
  else a ++ '/' :: b

/-- Worker for `pyreplace`, structurally recursive on a fuel bounded below by
the string length (each step consumes at least one character, so the fuel
never runs out before the string does). -/
def pyreplaceFuel (pat : PyStr) : Nat → PyStr → PyStr
  | _, [] => []
  | 0, s => s
  | fuel + 1, c :: rest =>
    if 0 < pat.length ∧ pat.isPrefixOf (c :: rest) then
      pyreplaceFuel pat fuel ((c :: rest).drop pat.length)
    else c :: pyreplaceFuel pat fuel rest

/-- Python `s.replace(pat, "")` for a non-empty pattern `pat`: remove every
(left-to-right, non-overlapping) occurrence of `pat`. The `0 < pat.length`
guard only departs from Python for the empty pattern, which `staged.py` never
uses. -/
def pyreplace (s pat : PyStr) : PyStr := pyreplaceFuel pat s.length s

/-- Python `p.split('/')`: split on every slash, keeping empty pieces. -/
def splitOnSlash : PyStr → List PyStr
  | [] => [[]]
  | c :: rest =>
    if c = '/' then [] :: splitOnSlash rest
    else
      match splitOnSlash rest with
      | [] => [[c]]
      | h :: t => (c :: h) :: t

/-- The component-normalisation loop of `posixpath.normpath`. -/
def normpathComps (initialSlashes : Nat) (comps : List PyStr) : List PyStr :=
  comps.foldl
    (fun acc comp =>
      if comp = [] ∨ comp = pl "." then acc
      else if comp ≠ pl ".." ∨ (initialSlashes = 0 ∧ acc = []) ∨ acc.getLast? = some (pl "..") then
        acc ++ [comp]
      else if acc ≠ [] then acc.dropLast
      else acc)
    []

/-- `os.path.normpath` (posixpath). For the absolute paths produced by
`deploy_site`, `os.path.abspath(path)` equals `normpath path`. -/
def normpath (p : PyStr) : PyStr :=
  if p = [] then pl "."
  else
    let initialSlashes : Nat :=
      if startswith p (pl "/") then
        if startswith p (pl "//") ∧ startswith p (pl "///") = false then 2 else 1
      else 0
    let comps := normpathComps initialSlashes (splitOnSlash p)
    let res := List.replicate initialSlashes '/' ++ List.intercalate (pl "/") comps
    if res = [] then pl "." else res

/-- One iteration of the outer loop of `common_parent` (`staged.py` lines
306-316): since `os.path.split` returns a pair, the inner `for i in
range(0, len(bits)-1)` runs exactly once with `i = 0`, and
`os.path.join(bits[0], *bits[1:0]) + "/"` is `bits[0] + "/"`. -/
def cpStep (files : List PyStr) (top : PyStr) (filename : PyStr) : PyStr :=
  if top = pl "/" ∨ startswith filename top = false then
    if files.all (fun fp => startswith fp ((pysplit filename).1 ++ pl "/")) then
      (pysplit filename).1 ++ pl "/"
    else top
  else top

/-- `common_parent` (`staged.py` lines 306-316); the final
`return top_directory or "/"`. -/
def common_parent (files : List PyStr) : PyStr :=
  if files.foldl (cpStep files) (pl "/") = [] then pl "/"
  else files.foldl (cpStep files) (pl "/")

/-! ## Constants (`staged.py` lines 25-42) -/

def GIT_CMD : PyStr := pl "/usr/bin/git"

def SVN_CMD : PyStr := pl "/usr/bin/svn"

def ROOT_DIR : PyStr := pl "/www"

def BLOGS_ROOT_DIR : PyStr := pl "/www/blogs"

def CHECKOUT_TIMEOUT : Nat := 180

def APACHE_SUFFIX : PyStr := pl ".apache.org"

def GITBOX_ALLOWED : PyStr := pl "https://gitbox.apache.org/repos/asf/"

def GITHUB_ALLOWED : PyStr := pl "https://github.com/apache/"

/-! ## Regex checks

`re.match(r"^[-a-zA-Z0-9/.]+$", s)` and `re.match(r"^[-._a-zA-Z0-9/]+$", s)`:
anchored at the start; `$` matches at the end of the string or just before one
trailing newline, so a single trailing newline is tolerated. -/

/-- The character class of the `deploydir` allow-list regex `[-a-zA-Z0-9/.]`. -/
def allowCharDeploy (c : Char) : Bool :=
  decide (c = '-' ∨ ('a' ≤ c ∧ c ≤ 'z') ∨ ('A' ≤ c ∧ c ≤ 'Z') ∨ ('0' ≤ c ∧ c ≤ '9') ∨
    c = '/' ∨ c = '.')

/-- The character class of the `subdir` allow-list regex `[-._a-zA-Z0-9/]`. -/
def allowCharSubdir (c : Char) : Bool :=
  decide (c = '-' ∨ c = '.' ∨ c = '_' ∨ ('a' ≤ c ∧ c ≤ 'z') ∨ ('A' ≤ c ∧ c ≤ 'Z') ∨
    ('0' ≤ c ∧ c ≤ '9') ∨ c = '/')

/-- The newline character. -/
def nlChar : Char := Char.ofNat 10

/-- Truthiness of Python `re.match("^[class]+$", s)`: the whole string, minus at
most one trailing newline, is non-empty and drawn from the class. -/
def pymatch_full (allow : Char → Bool) (s : PyStr) : Bool :=
  let t := if s.getLast? = some nlChar then s.dropLast else s
  decide (t ≠ []) && t.all allow

/-! ## Reconciliation engine (`deploy_site`, `staged.py` lines 158-265) -/

inductive DeployType
  | website
  | blog
  | svn
deriving DecidableEq

/-- The on-disk state `deploy_site` observes at the target path: whether the
path is a directory, whether `path/.svn` is a directory, and the result of the
two `git` metadata reads (`remote.origin.url`, `symbolic-ref --short HEAD`);
`none` models a `subprocess.CalledProcessError` from either read. -/
structure DiskState where
  isDir : Bool
  hasSvn : Bool
  gitMeta : Option (PyStr × PyStr)
deriving DecidableEq

/-- The action `deploy_site` decides on.  `clobberCheckout` and
`freshCheckout` both run `checkout_git_repo`; the former reaches it with an
existing directory (which `checkout_git_repo` then removes), the latter
without one. -/
inductive Action
  | rejectedDir
  | rejectedPath
  | rejectedSource
  | rejectedBranch
  | svnUp
  | clobberCheckout
  | gitPull
  | svnIgnore
  | freshCheckout
deriving DecidableEq

def Action.isRejected : Action → Bool
  | .rejectedDir => true
  | .rejectedPath => true
  | .rejectedSource => true
  | .rejectedBranch => true
  | _ => false

/-- The post-validation dispatch of `deploy_site` on the observed disk state
(`staged.py` lines 187-265). -/
def reconcile_dispatch (source branch : PyStr) (dt : DeployType) (disk : DiskState) : Action :=
  if disk.isDir then
    if disk.hasSvn then
      if dt = .svn then .svnUp else .clobberCheckout
    else
      match disk.gitMeta with
      | none => .clobberCheckout
      | some (csource, cbranch) =>
        if csource ≠ source then .clobberCheckout
        else if cbranch ≠ branch then .clobberCheckout
        else .gitPull
  else if dt = .svn then .svnIgnore
  else .freshCheckout

/-- The decision structure of `deploy_site` (`staged.py` lines 158-265): the
four pre-validation checks in order, then the dispatch on the observed disk
state.  `disk` describes the target path (for `deploytype == "blog"` the code
re-points `path` under `BLOGS_ROOT_DIR`; `disk` is the state of whichever path
is examined, so the dispatch structure is unchanged). -/
def deploy_site_action (deploydir source branch : PyStr) (dt : DeployType)
    (disk : DiskState) : Action :=
  if pymatch_full allowCharDeploy (pyreplace deploydir APACHE_SUFFIX) = false ∨
      List.IsInfix (pl "..") deploydir then .rejectedDir
  else if normpath (pyjoin ROOT_DIR deploydir) ≠ pyjoin ROOT_DIR deploydir then .rejectedPath
  else if dt ≠ .svn ∧ startswith source GITBOX_ALLOWED = false ∧
      startswith source GITHUB_ALLOWED = false then .rejectedSource
  else if branch = [] then .rejectedBranch
  else reconcile_dispatch source branch dt disk

/-! ## VCS executor (`checkout_git_repo`, `do_git_pull`, `do_svn_up`,
`staged.py` lines 62-154) -/

/-- Outcome of one external process call: normal exit, non-zero exit
(`subprocess.CalledProcessError`), or `subprocess.TimeoutExpired`. -/
inductive ProcOutcome
  | ok
  | procError
  | timeout
deriving DecidableEq

/-- Python exceptions the embedding distinguishes. -/
inductive PyExc
  | valueError
  | typeError
  | attributeError
  | keyError
  | nameError
deriving DecidableEq

/-- One `subprocess.check_output` invocation: its argument vector and the
`timeout=` keyword it is given, if any. -/
structure Invocation where
  argv : List PyStr
  timeoutSecs : Option Nat
deriving DecidableEq

/-- The `git clone` call of `checkout_git_repo` (lines 74-77). -/
def clone_invocation (branch source path : PyStr) : Invocation :=
  ⟨[GIT_CMD, pl "clone", pl "-b", branch, pl "--single-branch", source, path],
    some CHECKOUT_TIMEOUT⟩

/-- The `git fetch` call of `do_git_pull` (lines 94-98). -/
def fetch_invocation (branch : PyStr) : Invocation :=
  ⟨[GIT_CMD, pl "fetch", pl "origin", branch], some CHECKOUT_TIMEOUT⟩

/-- The `git reset --hard origin/<branch>` call of `do_git_pull` (lines
120-122).  The source passes no `timeout=` keyword here. -/
def reset_invocation (branch : PyStr) : Invocation :=
  ⟨[GIT_CMD, pl "reset", pl "--hard", pl "origin/" ++ branch], none⟩

/-- The `svn up` call of `do_svn_up` (lines 136-140). -/
def svnup_invocation : Invocation :=
  ⟨[SVN_CMD, pl "up"], some CHECKOUT_TIMEOUT⟩

/-- What one executor operation did: the process invocations it attempted, and
the exception (if any) that escaped it. -/
structure OpResult where
  invocations : List Invocation
  raises : Option PyExc
deriving DecidableEq

/-- `do_git_pull` (lines 89-130): fetch, and on fetch success reset.  A fetch
`CalledProcessError` is logged and the function returns; a fetch
`TimeoutExpired` enters a handler that formats `"... timed out" % source`
where no variable `source` is in scope, so a `NameError` escapes.  The reset
call carries no timeout, and its `CalledProcessError` is caught. -/
def do_git_pull (branch : PyStr) (fetchOut : ProcOutcome) : OpResult :=
  match fetchOut with
  | .ok => { invocations := [fetch_invocation branch, reset_invocation branch], raises := none }
  | .procError => { invocations := [fetch_invocation branch], raises := none }
  | .timeout => { invocations := [fetch_invocation branch], raises := some .nameError }

/-- `do_svn_up` (lines 132-154): both `CalledProcessError` and
`TimeoutExpired` are caught and logged. -/
def do_svn_up (svnOut : ProcOutcome) : OpResult :=
  match svnOut with
  | _ => { invocations := [svnup_invocation], raises := none }

/-- Result of `checkout_git_repo`. -/
structure CheckoutResult where
  removedExisting : Bool
  raises : Option PyExc
  dirAfter : Bool
deriving DecidableEq

/-- `checkout_git_repo` (lines 62-87): if the target is a directory it is
`shutil.rmtree`d first; then `git clone` runs, with `CalledProcessError` and
`TimeoutExpired` both caught and logged.  The external clone is modelled
all-or-nothing: it creates the target directory exactly when it succeeds. -/
def checkout_git_repo (isDir : Bool) (cloneOut : ProcOutcome) : CheckoutResult :=
  { removedExisting := isDir
    raises := none
    dirAfter := decide (cloneOut = .ok) }

/-! ## The deploy queue (`PUBSUB_QUEUE`)

A CPython `dict` keyed by `deploydir`, modelled as an insertion-ordered
association list with unique keys: `PUBSUB_QUEUE[k] = v` overwrites the value
in place when the key is present and appends otherwise. -/

/-- A queued entry: the `deploydir` key and the `[source, branch, committer,
root_deployment, deploytype]` value list. -/
abbrev QEntry := PyStr × List PyStr

/-- `PUBSUB_QUEUE[k] = v` (dict item assignment). -/
def upsert (q : List QEntry) (k : PyStr) (v : List PyStr) : List QEntry :=
  if k ∈ q.map Prod.fst then q.map (fun kv => if kv.1 = k then (k, v) else kv)
  else q ++ [(k, v)]

/-! ## The drain race (`deploy.run`, `staged.py` lines 279-304, and the
enqueue at lines 399-405)

`deploy.run` executes `XPQ = PUBSUB_QUEUE` and `PUBSUB_QUEUE = {}` as two
separate statements, while the listener's `PUBSUB_QUEUE[deploydir] = [...]`
compiles to a load of the global dict reference followed by a store into it.
The model exposes exactly these micro-steps over a heap of dict objects. -/

/-- Micro-events: the listener's load of the `PUBSUB_QUEUE` reference
(`lRead`) and its store into the loaded dict (`lWrite`); the drain's
`XPQ = PUBSUB_QUEUE` (`dSnap`), `PUBSUB_QUEUE = {}` (`dReset`) and its
iteration over `XPQ.items()` (`dProc`). -/
inductive RaceEv
  | lRead
  | lWrite
  | dSnap
  | dReset
  | dProc
deriving DecidableEq

/-- Shared state: a heap of dict objects (index = reference), the global
`PUBSUB_QUEUE` reference, the listener's loaded reference, the drain's `XPQ`
reference, and the snapshots the drain has processed so far. -/
structure RaceState where
  heap : List (List QEntry)
  qRef : Nat
  lSaved : Option Nat
  xpq : Option Nat
  processed : List (List QEntry)
deriving DecidableEq

def raceInit : RaceState := ⟨[[]], 0, none, none, []⟩

def raceStep (k : PyStr) (v : List PyStr) (s : RaceState) : RaceEv → RaceState
  | .lRead => { s with lSaved := some s.qRef }
  | .lWrite =>
    match s.lSaved with
    | some r => { s with heap := s.heap.set r (upsert (s.heap.getD r []) k v), lSaved := none }
    | none => s
  | .dSnap => { s with xpq := some s.qRef }
  | .dReset => { s with heap := s.heap ++ [[]], qRef := s.heap.length }
  | .dProc =>
    match s.xpq with
    | some r => { s with processed := s.processed ++ [s.heap.getD r []], xpq := none }
    | none => s

/-- Run a schedule of micro-events for one upsert of `(k, v)` racing the drain. -/
def raceRun (k : PyStr) (v : List PyStr) (evs : List RaceEv) : RaceState :=
  evs.foldl (raceStep k v) raceInit

/-- How many times key `k` occurs across all processed drain snapshots plus
the live queue (which the next drain will snapshot). -/
def keyOccurrences (k : PyStr) (s : RaceState) : Nat :=
  ((s.processed ++ [s.heap.getD s.qRef []]).map (fun snap => (snap.map Prod.fst).count k)).sum

/-! ## One drained item (`deploy.run` loop body, `staged.py` lines 285-303)

For each `(deploydir, opts)` of the snapshot, `deploy_site` runs inside a
broad `except Exception` that logs and continues; when it returns without
raising and `PUBLISH and FASTLY_API_KEY` holds, purges are issued
unconditionally: a blog-subdomain purge for blog deployments, the
`hostname` purge, and an extra `apache.org` purge when the hostname is
`www.apache.org`. -/

/-- Whether the modelled `deploy_site` call lets an exception escape: the only
modelled escape is `do_git_pull`'s `NameError` when the fetch times out. -/
def deploy_site_raises (a : Action) (fetchOut : ProcOutcome) : Bool :=
  decide (a = .gitPull ∧ fetchOut = .timeout)

/-- The hostnames purged (in order) while processing one snapshot entry. -/
def run_item (publishFlag fastlyKey : Bool) (deploydir source branch hostname : PyStr)
    (dt : DeployType) (disk : DiskState) (fetchOut : ProcOutcome) : List PyStr :=
  let a := deploy_site_action deploydir source branch dt disk
  if deploy_site_raises a fetchOut then []
  else if publishFlag && fastlyKey then
    (if dt = .blog then [pyreplace deploydir (pl ".blog") ++ pl ".blog.apache.org"] else [])
      ++ [hostname]
      ++ (if hostname = pl "www.apache.org" then [pl "apache.org"] else [])
  else []

/-! ## Decoded JSON payloads and Python dynamic semantics

`listen` receives one decoded JSON value per pubsub message.  The helpers
below give each Python operation the body performs its exact dynamic
behaviour, including the exception it raises on an ill-typed operand. -/

inductive JVal
  | jnull
  | jbool (b : Bool)
  | jnum (n : Int)
  | jstr (s : PyStr)
  | jarr (xs : List JVal)
  | jobj (kvs : List (PyStr × JVal))

/-- Lookup in a dict with string keys. -/
def plook {α : Type} : List (PyStr × α) → PyStr → Option α
  | [], _ => none
  | (a, x) :: rest, k => if a = k then some x else plook rest k

/-- Python `v == s` for a string literal `s`: value equality when `v` is a
string, `False` otherwise (no exception). -/
def jeqStr (v : JVal) (s : PyStr) : Bool :=
  match v with
  | .jstr t => decide (t = s)
  | _ => false

/-- Python `k in v` for a string `k`: key membership for a dict, `==` against
each element for a list, substring test for a string, `TypeError` otherwise. -/
def jin (k : PyStr) (v : JVal) : Except PyExc Bool :=
  match v with
  | .jobj kvs => .ok (plook kvs k).isSome
  | .jarr xs => .ok (xs.any (fun x => jeqStr x k))
  | .jstr s => .ok (decide (List.IsInfix k s))
  | _ => .error .typeError

/-- Python `v[k]` for a string `k`: `KeyError` on a dict miss, `TypeError` on
any non-dict. -/
def jindex (v : JVal) (k : PyStr) : Except PyExc JVal :=
  match v with
  | .jobj kvs =>
    match plook kvs k with
    | some x => .ok x
    | none => .error .keyError
  | _ => .error .typeError

/-- Python `v.get(k, d)`: only dicts have `.get`; anything else raises
`AttributeError`. -/
def jget (v : JVal) (k : PyStr) (d : JVal) : Except PyExc JVal :=
  match v with
  | .jobj kvs => .ok ((plook kvs k).getD d)
  | _ => .error .attributeError

/-- Python `isinstance(v, dict)`. -/
def jisobj : JVal → Bool
  | .jobj _ => true
  | _ => false

/-- Python truthiness. -/
def jtruthy : JVal → Bool
  | .jnull => false
  | .jbool b => b
  | .jnum n => decide (n ≠ 0)
  | .jstr s => decide (s ≠ [])
  | .jarr [] => false
  | .jarr (_ :: _) => true
  | .jobj [] => false
  | .jobj (_ :: _) => true

/-- The single-quote, left-brace and right-brace characters. -/
def sqChar : Char := Char.ofNat 39

def lbChar : Char := Char.ofNat 123

def rbChar : Char := Char.ofNat 125

mutual

/-- Python `repr` of a decoded JSON value (string escaping not modelled; only
scalar values reach formatting in the source's realistic payloads). -/
def jrepr : JVal → PyStr
  | .jnull => pl "None"
  | .jbool b => bif b then pl "True" else pl "False"
  | .jnum n => (toString n).toList
  | .jstr s => sqChar :: (s ++ [sqChar])
  | .jarr xs => '[' :: (List.intercalate (pl ", ") (jreprList xs) ++ [']'])
  | .jobj kvs => lbChar :: (List.intercalate (pl ", ") (jreprPairs kvs) ++ [rbChar])

def jreprList : List JVal → List PyStr
  | [] => []
  | x :: rest => jrepr x :: jreprList rest

def jreprPairs : List (PyStr × JVal) → List PyStr
  | [] => []
  | (k, x) :: rest => ((sqChar :: (k ++ [sqChar])) ++ pl ": " ++ jrepr x) :: jreprPairs rest

end

/-- Python `str(v)` / `"%s" % v`. -/
def jstrOf : JVal → PyStr
  | .jstr s => s
  | .jnum n => (toString n).toList
  | .jbool b => bif b then pl "True" else pl "False"
  | .jnull => pl "None"
  | .jarr xs => jrepr (.jarr xs)
  | .jobj kvs => jrepr (.jobj kvs)

/-- Python `v + s` for a string `s`: string concatenation when `v` is a
string, `TypeError` otherwise. -/
def jaddStr (v : JVal) (s : PyStr) : Except PyExc JVal :=
  match v with
  | .jstr a => .ok (.jstr (a ++ s))
  | _ => .error .typeError

/-- `v.replace("refs/heads/", "")`: only strings have `.replace`. -/
def jreplaceRefsHeads (v : JVal) : Except PyExc JVal :=
  match v with
  | .jstr s => .ok (.jstr (pyreplace s (pl "refs/heads/")))
  | _ => .error .attributeError

/-- `re.match(r"^[-._a-zA-Z0-9/]+$", v)`: `TypeError` on a non-string. -/
def jmatchSubdir (v : JVal) : Except PyExc Bool :=
  match v with
  | .jstr s => .ok (pymatch_full allowCharSubdir s)
  | _ => .error .typeError

/-- `os.path.join(a, b)`: `os.fspath` raises `TypeError` on non-strings. -/
def jjoin (a b : JVal) : Except PyExc JVal :=
  match a, b with
  | .jstr x, .jstr y => .ok (.jstr (pyjoin x y))
  | _, _ => .error .typeError

/-- Whether a value may be a dict key (`list` and `dict` are unhashable). -/
def jhashable : JVal → Bool
  | .jarr _ => false
  | .jobj _ => false
  | _ => true

/-- `SVN_UUIDS` (`staged.py` lines 18-21). -/
def SVN_UUIDS : List (PyStr × PyStr) :=
  [(pl "13f79535-47bb-0310-9956-ffa450edef68", pl "https://svn-master.apache.org/repos/asf"),
    (pl "90ea9780-b833-de11-8433-001ec94261de", pl "https://svn-master.apache.org/repos/infra")]

/-- Python `v in SVN_UUIDS` for the dict of UUID strings: unhashable operands
raise `TypeError`, other non-strings are simply absent. -/
def jinUuidDict (v : JVal) : Except PyExc Bool :=
  match v with
  | .jstr s => .ok (plook SVN_UUIDS s).isSome
  | .jarr _ => .error .typeError
  | .jobj _ => .error .typeError
  | _ => .ok false

/-- Collect the elements of a Python iteration over a list as strings;
`os.path.split` raises `TypeError` on the first non-string element. -/
def jstrElems : List JVal → Except PyExc (List PyStr)
  | [] => .ok []
  | JVal.jstr s :: rest => (jstrElems rest).map (fun l => s :: l)
  | _ :: _ => .error .typeError

/-- `common_parent(changed)` on the raw `.get("changed", [])` value: a list is
iterated (all elements must be strings), a string iterates its characters, a
dict iterates its keys, anything else is not iterable (`TypeError`). -/
def jcommonParent : JVal → Except PyExc PyStr
  | .jarr xs => (jstrElems xs).map common_parent
  | .jstr s => .ok (common_parent (s.map (fun c => [c])))
  | .jobj kvs => .ok (common_parent (kvs.map Prod.fst))
  | _ => .error .typeError

/-! ## The pubsub listener body (`listen`, `staged.py` lines 320-412)

The body of `async for payload in ...` normalizes one decoded payload and, if
it yields a deployment, performs `PUBSUB_QUEUE[deploydir] = [source, branch,
committer, root_deployment, deploytype]`.  The whole body is guarded by
`except ValueError` only. -/

/-- The svn-pubsub translation block (lines 326-349): when the payload carries
a recognised svn commit and the svnwcsub config is non-empty, each matching
`track` entry (last match wins, the loop does not break) replaces `payload`
with a synthesized publish payload. -/
def svnTranslate (svnconfig : List (PyStr × List (PyStr × PyStr))) (payload0 : JVal) :
    Except PyExc JVal := do
  let hasCommit ← jin (pl "commit") payload0
  if hasCommit then do
    let commit ← jindex payload0 (pl "commit")
    if jisobj commit then do
      let ctype ← jget commit (pl "type") (.jstr [])
      if jeqStr ctype (pl "svn") then do
        let repo ← jget commit (pl "repository") (.jstr [])
        let known ← jinUuidDict repo
        if known then do
          let svnUuid ← jindex payload0 (pl "commit") >>= (jindex · (pl "repository"))
          let svnRoot : PyStr :=
            match svnUuid with
            | .jstr s => (plook SVN_UUIDS s).getD []
            | _ => []
          let changed ← jget commit (pl "changed") (.jarr [])
          let cp ← jcommonParent changed
          let svnUrl := pyjoin svnRoot cp
          if svnconfig ≠ [] then do
            let pusher ← jget commit (pl "committer") (.jstr (pl "root"))
            let track := (plook svnconfig (pl "track")).getD []
            pure (track.foldl
              (fun pay tu =>
                if startswith svnUrl tu.2 ∧ startswith tu.1 (pl "/") then
                  let project : PyStr :=
                    if List.IsInfix (pl "/www/") tu.1 then
                      pyreplace (pysplit tu.1).2 APACHE_SUFFIX
                    else pl "infra"
                  JVal.jobj [(pl "publish", JVal.jobj
                    [(pl "project", .jstr project),
                      (pl "source", .jstr svnUrl),
                      (pl "pusher", pusher),
                      (pl "deploytype", .jstr (pl "svn")),
                      (pl "target", .jstr tu.1)])]
                else pay)
              payload0)
          else pure payload0
        else pure payload0
      else pure payload0
    else pure payload0
  else pure payload0

/-- The loop body of `listen` for one payload: normalize it and return the
dict assignment it performs, if any.  `publishFlag` is the module's `PUBLISH`
flag; `svnconfig` is `deployer.svnconfig`. -/
def listen_normalize (publishFlag : Bool) (svnconfig : List (PyStr × List (PyStr × PyStr)))
    (payload0 : JVal) : Except PyExc (Option (JVal × List JVal)) := do
  let ea : PyStr := if publishFlag = false then pl "staging" else pl "publish"
  let payload ← svnTranslate svnconfig payload0
  let hasEa ← jin ea payload
  if hasEa then do
    let sub ← jindex payload ea
    let project ← jget sub (pl "project") JVal.jnull
    let source ← jget sub (pl "source") JVal.jnull
    let branch0 ← jget sub (pl "branch") (.jstr (pl "asf-site"))
    let branch ← jreplaceRefsHeads branch0
    let profile ← jget sub (pl "profile") (.jstr [])
    let committer ← jget sub (pl "pusher") (.jstr (pl "root"))
    let subdir ← jget sub (pl "subdir") (.jstr [])
    let deploytype0 ← jget sub (pl "type") (.jstr (pl "website"))
    let deploytype : JVal :=
      if jeqStr deploytype0 (pl "website") || jeqStr deploytype0 (pl "blog") ||
          jeqStr deploytype0 (pl "svn") then deploytype0
      else .jstr (pl "website")
    let deploydirStaging ←
      if jtruthy profile then jaddStr project ('-' :: jstrOf profile) else pure project
    let deploydirA ←
      if publishFlag then do
        let dd : JVal := .jstr (jstrOf project ++ APACHE_SUFFIX)
        let hasTarget ← jin (pl "target") sub
        if hasTarget then do
          let hostdir ← jget sub (pl "target") JVal.jnull
          if jtruthy hostdir then pure hostdir else pure dd
        else pure dd
      else pure deploydirStaging
    if jtruthy deploydirA && jtruthy source && jtruthy branch then do
      let rootDeployment := deploydirA
      let deploydirB ←
        if jtruthy subdir then do
          let m ← jmatchSubdir subdir
          if m then jjoin deploydirA subdir else pure deploydirA
        else pure deploydirA
      let deploydirC : JVal :=
        if jeqStr deploytype (pl "blog") then .jstr (jstrOf project ++ pl ".blog")
        else deploydirB
      if jhashable deploydirC then
        pure (some (deploydirC, [source, branch, committer, rootDeployment, deploytype]))
      else throw .typeError
    else pure none
  else pure none

/-- What the consumption loop does with one payload: the body runs under
`except ValueError` only (lines 407-411), so a `ValueError` is logged and the
loop continues, while any other exception escapes the `async for` and
terminates `listen`. -/
inductive LoopStep
  | cont (enq : Option (JVal × List JVal))
  | crash (e : PyExc)

def listen_step (publishFlag : Bool) (svnconfig : List (PyStr × List (PyStr × PyStr)))
    (payload : JVal) : LoopStep :=
  match listen_normalize publishFlag svnconfig payload with
  | .ok r => .cont r
  | .error .valueError => .cont none
  | .error e => .crash e

/-! # Theorems -/

/-! ## C2: `common_parent` -/

/-- The invariant the `common_parent` fold maintains: the accumulator is the
root, or it is `head(f) + "/"` for some input `f` and a common prefix of all
inputs. -/
def cpInvariant (files : List PyStr) (top : PyStr) : Prop :=
  top = pl "/" ∨
    ((∃ f ∈ files, top = (pysplit f).1 ++ pl "/") ∧ ∀ fp ∈ files, startswith fp top = true)

lemma cpStep_preserves (files : List PyStr) :
    ∀ l : List PyStr, (∀ x ∈ l, x ∈ files) → ∀ acc, cpInvariant files acc →
      cpInvariant files (l.foldl (cpStep files) acc) := by
  intro l
  induction l with
  | nil => exact fun _ acc h => h
  | cons x xs ih =>
    intro hsub acc h
    simp only [List.foldl_cons]
    refine ih (fun y hy => hsub y (List.mem_cons_of_mem _ hy)) _ ?_
    unfold cpStep
    split
    · split
      · rename_i hall
        refine Or.inr ⟨⟨x, hsub x (List.mem_cons_self _ _), rfl⟩, fun fp hfp => ?_⟩
        exact List.all_eq_true.mp hall fp hfp
      · exact h
    · exact h

/-- C2, counterexample.  On `["a/b/x/u.txt", "a/b/y/v.txt"]` the code returns
`"/"` even though `"a/b/"` is a deeper directory prefix shared by both inputs,
and `"/"` is not even a string prefix of either (relative) input; and on the
single-element list `["a/b/c.txt"]` the code returns `"a/b/"`, not the root. -/
theorem c2_counterexample :
    common_parent [pl "a/b/x/u.txt", pl "a/b/y/v.txt"] = pl "/" ∧
    startswith (pl "a/b/x/u.txt") (pl "a/b/") = true ∧
    startswith (pl "a/b/y/v.txt") (pl "a/b/") = true ∧
    (pl "/").length < (pl "a/b/").length ∧
    startswith (pl "a/b/x/u.txt") (pl "/") = false ∧
    common_parent [pl "a/b/c.txt"] = pl "a/b/" := by decide

/-- C2, amended.  `common_parent([])` and `common_parent(["/a"])` return the
root, and for every input list the result is either the root `"/"` or
`head(f) + "/"` for the parent directory `head(f)` of some input `f`, in which
case it is a string prefix of every input.  It is not in general the deepest
shared directory prefix, it is not a prefix of every input when it returns
`"/"` on relative paths, and a single-element list does not in general map to
the root. -/
theorem c2_common_parent_amended :
    common_parent [] = pl "/" ∧ common_parent [pl "/a"] = pl "/" ∧
    ∀ files : List PyStr,
      common_parent files = pl "/" ∨
        ((∃ f ∈ files, common_parent files = (pysplit f).1 ++ pl "/") ∧
          ∀ fp ∈ files, startswith fp (common_parent files) = true) := by
  refine ⟨by decide, by decide, fun files => ?_⟩
  have h := cpStep_preserves files files (fun _ hx => hx) (pl "/") (Or.inl rfl)
  unfold common_parent
  split
  · exact Or.inl rfl
  · exact h

/-- C2, witness: the amended characterization instantiated at a concrete
input list. -/
theorem c2_common_parent_amended_witness :
    common_parent [pl "a/b/c.txt", pl "a/b/d.txt"] = pl "/" ∨
      ((∃ f ∈ [pl "a/b/c.txt", pl "a/b/d.txt"],
          common_parent [pl "a/b/c.txt", pl "a/b/d.txt"] = (pysplit f).1 ++ pl "/") ∧
        ∀ fp ∈ [pl "a/b/c.txt", pl "a/b/d.txt"],
          startswith fp (common_parent [pl "a/b/c.txt", pl "a/b/d.txt"]) = true) :=
  c2_common_parent_amended.2.2 [pl "a/b/c.txt", pl "a/b/d.txt"]

/-! ## C1: reconciliation of an existing git checkout -/

lemma not_rejected_eq_dispatch (deploydir source branch : PyStr) (dt : DeployType)
    (disk : DiskState)
    (hrej : (deploy_site_action deploydir source branch dt disk).isRejected = false) :
    deploy_site_action deploydir source branch dt disk =
      reconcile_dispatch source branch dt disk := by
  by_cases h1 : pymatch_full allowCharDeploy (pyreplace deploydir APACHE_SUFFIX) = false ∨
      List.IsInfix (pl "..") deploydir
  · simp only [deploy_site_action, if_pos h1, Action.isRejected] at hrej
    exact absurd hrej (by decide)
  by_cases h2 : normpath (pyjoin ROOT_DIR deploydir) ≠ pyjoin ROOT_DIR deploydir
  · simp only [deploy_site_action, if_neg h1, if_pos h2, Action.isRejected] at hrej
    exact absurd hrej (by decide)
  by_cases h3 : dt ≠ .svn ∧ startswith source GITBOX_ALLOWED = false ∧
      startswith source GITHUB_ALLOWED = false
  · simp only [deploy_site_action, if_neg h1, if_neg h2, if_pos h3, Action.isRejected] at hrej
    exact absurd hrej (by decide)
  by_cases h4 : branch = []
  · simp only [deploy_site_action, if_neg h1, if_neg h2, if_neg h3, if_pos h4,
      Action.isRejected] at hrej
    exact absurd hrej (by decide)
  · simp only [deploy_site_action, if_neg h1, if_neg h2, if_neg h3, if_neg h4]

/-- C1.  For a request that passes validation and whose target directory holds
a git working copy (a directory without `.svn`): when the recorded origin and
branch both equal the request's, `deploy_site` selects the incremental update
`do_git_pull` — a fetch invocation followed by a no-timeout hard reset, with
no clone and no removal of the directory; when either field differs, or the
metadata reads fail, it selects `checkout_git_repo`, which removes the
existing directory tree and performs the fresh clone. -/
theorem c1_reconciliation (deploydir source branch : PyStr) (dt : DeployType)
    (disk : DiskState)
    (hrej : (deploy_site_action deploydir source branch dt disk).isRejected = false)
    (hdir : disk.isDir = true) (hsvn : disk.hasSvn = false) :
    (disk.gitMeta = some (source, branch) →
      deploy_site_action deploydir source branch dt disk = Action.gitPull) ∧
    (∀ csource cbranch, disk.gitMeta = some (csource, cbranch) →
      csource ≠ source ∨ cbranch ≠ branch →
      deploy_site_action deploydir source branch dt disk = Action.clobberCheckout) ∧
    (disk.gitMeta = none →
      deploy_site_action deploydir source branch dt disk = Action.clobberCheckout) ∧
    (∀ fetchOut, (do_git_pull branch fetchOut).invocations.head? =
      some (fetch_invocation branch)) ∧
    (do_git_pull branch ProcOutcome.ok).invocations =
      [fetch_invocation branch, reset_invocation branch] ∧
    (∀ cloneOut, (checkout_git_repo disk.isDir cloneOut).removedExisting = true) := by
  rw [not_rejected_eq_dispatch deploydir source branch dt disk hrej]
  refine ⟨?_, ?_, ?_, ?_, rfl, ?_⟩
  · intro hm
    simp [reconcile_dispatch, hdir, hsvn, hm]
  · intro csource cbranch hm hne
    rcases hne with hne | hne <;> simp [reconcile_dispatch, hdir, hsvn, hm, hne]
  · intro hm
    simp [reconcile_dispatch, hdir, hsvn, hm]
  · intro fetchOut
    cases fetchOut <;> rfl
  · intro cloneOut
    simp [checkout_git_repo, hdir]

/-- C1, witness: a concrete matching request takes the incremental-update
path, and the same request against a checkout recording a different branch
takes the clobber path. -/
theorem c1_reconciliation_witness :
    ((deploy_site_action (pl "foo.apache.org") (pl "https://gitbox.apache.org/repos/asf/foo.git")
        (pl "asf-site") DeployType.website
        ⟨true, false, some (pl "https://gitbox.apache.org/repos/asf/foo.git", pl "asf-site")⟩).isRejected
      = false) ∧
    deploy_site_action (pl "foo.apache.org") (pl "https://gitbox.apache.org/repos/asf/foo.git")
        (pl "asf-site") DeployType.website
        ⟨true, false, some (pl "https://gitbox.apache.org/repos/asf/foo.git", pl "asf-site")⟩
      = Action.gitPull ∧
    deploy_site_action (pl "foo.apache.org") (pl "https://gitbox.apache.org/repos/asf/foo.git")
        (pl "asf-site") DeployType.website
        ⟨true, false, some (pl "https://gitbox.apache.org/repos/asf/foo.git", pl "main")⟩
      = Action.clobberCheckout := by
  refine ⟨by decide, ?_, ?_⟩
  · exact ((c1_reconciliation (pl "foo.apache.org")
      (pl "https://gitbox.apache.org/repos/asf/foo.git") (pl "asf-site") DeployType.website
      ⟨true, false, some (pl "https://gitbox.apache.org/repos/asf/foo.git", pl "asf-site")⟩
      (by decide) (by decide) (by decide)).1 rfl)
  · exact (((c1_reconciliation (pl "foo.apache.org")
      (pl "https://gitbox.apache.org/repos/asf/foo.git") (pl "asf-site") DeployType.website
      ⟨true, false, some (pl "https://gitbox.apache.org/repos/asf/foo.git", pl "main")⟩
      (by decide) (by decide) (by decide)).2.1) _ _ rfl (Or.inr (by decide)))

/-! ## C3: request validation and path confinement -/

lemma pyjoin_root (d : PyStr) :
    pyjoin ROOT_DIR d = if startswith d (pl "/") then d else pl "/www/" ++ d := by
  unfold pyjoin ROOT_DIR
  split
  · rfl
  · rw [if_neg (show ¬((pl "/www" : PyStr) = [] ∨ (pl "/www").getLast? = some '/') from
      by decide)]
    rfl

/-- C3, counterexample.  The absolute deploy dir `"/x"` contains no banned
character and no `".."`, and `os.path.join("/www", "/x")` is just `"/x"` and
already normalized, so the request passes validation and proceeds to a fresh
checkout at `/x` — outside the deployment root.  Separately, `"foo\n"`
contains the newline character, which is outside the allow-list, yet is not
rejected, because `$` in `re.match` also matches just before a trailing
newline. -/
theorem c3_counterexample :
    deploy_site_action (pl "/x") (pl "https://gitbox.apache.org/repos/asf/foo.git")
        (pl "asf-site") DeployType.website ⟨false, false, none⟩ = Action.freshCheckout ∧
    pyjoin ROOT_DIR (pl "/x") = pl "/x" ∧
    startswith (pyjoin ROOT_DIR (pl "/x")) (pl "/www") = false ∧
    deploy_site_action (pl "foo\n") (pl "https://gitbox.apache.org/repos/asf/foo.git")
        (pl "asf-site") DeployType.website ⟨false, false, none⟩ = Action.freshCheckout ∧
    nlChar ∈ pl "foo\n" ∧ allowCharDeploy nlChar = false := by decide

/-- C3, amended.  A `deploydir` containing `".."`, or failing the allow-list
regex (which tolerates one trailing newline), is rejected before any dispatch
on disk state, regardless of source and branch; a request that survives the
two directory checks has a target path that normalization leaves unchanged;
the joined target path is always absolute, and it is a descendant of `/www/`
exactly when `deploydir` is relative — an absolute `deploydir` replaces the
deployment root entirely. -/
theorem c3_validation_amended (deploydir source branch : PyStr) (dt : DeployType)
    (disk : DiskState) :
    (List.IsInfix (pl "..") deploydir →
      deploy_site_action deploydir source branch dt disk = Action.rejectedDir) ∧
    (pymatch_full allowCharDeploy (pyreplace deploydir APACHE_SUFFIX) = false →
      deploy_site_action deploydir source branch dt disk = Action.rejectedDir) ∧
    (deploy_site_action deploydir source branch dt disk ≠ Action.rejectedDir →
      deploy_site_action deploydir source branch dt disk ≠ Action.rejectedPath →
      normpath (pyjoin ROOT_DIR deploydir) = pyjoin ROOT_DIR deploydir) ∧
    (startswith deploydir (pl "/") = true → pyjoin ROOT_DIR deploydir = deploydir) ∧
    (startswith deploydir (pl "/") = false →
      startswith (pyjoin ROOT_DIR deploydir) (pl "/www/") = true) ∧
    startswith (pyjoin ROOT_DIR deploydir) (pl "/") = true := by
  refine ⟨?_, ?_, ?_, ?_, ?_, ?_⟩
  · intro h
    simp only [deploy_site_action, if_pos (Or.inr h)]
  · intro h
    simp only [deploy_site_action, if_pos (Or.inl h)]
  · intro hd hp
    by_cases h1 : pymatch_full allowCharDeploy (pyreplace deploydir APACHE_SUFFIX) = false ∨
        List.IsInfix (pl "..") deploydir
    · exact absurd (by simp only [deploy_site_action, if_pos h1]) hd
    by_cases h2 : normpath (pyjoin ROOT_DIR deploydir) ≠ pyjoin ROOT_DIR deploydir
    · exact absurd (by simp only [deploy_site_action, if_neg h1, if_pos h2]) hp
    · exact not_ne_iff.mp h2
  · intro h
    rw [pyjoin_root, if_pos h]
  · intro h
    rw [pyjoin_root, if_neg (by simp [h]), startswith]
    simp [List.isPrefixOf_iff_prefix]
  · rw [pyjoin_root]
    split
    · assumption
    · rw [startswith]
      simp [List.isPrefixOf_iff_prefix]
      exact ⟨pl "www/" ++ deploydir, rfl⟩

/-- C3, witness: a well-formed relative deploy dir is not rejected by either
directory check, and its joined path is normalized, absolute and under
`/www/`; a traversal attempt and a bad character are rejected outright. -/
theorem c3_validation_witness :
    (deploy_site_action (pl "foo.apache.org") (pl "https://gitbox.apache.org/repos/asf/foo.git")
        (pl "asf-site") DeployType.website ⟨false, false, none⟩ ≠ Action.rejectedDir) ∧
    (deploy_site_action (pl "foo.apache.org") (pl "https://gitbox.apache.org/repos/asf/foo.git")
        (pl "asf-site") DeployType.website ⟨false, false, none⟩ ≠ Action.rejectedPath) ∧
    normpath (pyjoin ROOT_DIR (pl "foo.apache.org")) = pyjoin ROOT_DIR (pl "foo.apache.org") ∧
    List.IsInfix (pl "..") (pl "foo/../bar") ∧
    deploy_site_action (pl "foo/../bar") (pl "https://gitbox.apache.org/repos/asf/foo.git")
        (pl "asf-site") DeployType.website ⟨false, false, none⟩ = Action.rejectedDir ∧
    pymatch_full allowCharDeploy (pyreplace (pl "foo!bar") APACHE_SUFFIX) = false ∧
    deploy_site_action (pl "foo!bar") (pl "https://gitbox.apache.org/repos/asf/foo.git")
        (pl "asf-site") DeployType.website ⟨false, false, none⟩ = Action.rejectedDir := by
  refine ⟨by decide, by decide, ?_, by decide, ?_, by decide, ?_⟩
  · exact (c3_validation_amended (pl "foo.apache.org")
      (pl "https://gitbox.apache.org/repos/asf/foo.git") (pl "asf-site") DeployType.website
      ⟨false, false, none⟩).2.2.1 (by decide) (by decide)
  · exact (c3_validation_amended (pl "foo/../bar")
      (pl "https://gitbox.apache.org/repos/asf/foo.git") (pl "asf-site") DeployType.website
      ⟨false, false, none⟩).1 (by decide)
  · exact (c3_validation_amended (pl "foo!bar")
      (pl "https://gitbox.apache.org/repos/asf/foo.git") (pl "asf-site") DeployType.website
      ⟨false, false, none⟩).2.1 (by decide)

/-! ## C4: queue coalescing (last-writer-wins) -/

lemma replace_keys (q : List QEntry) (k : PyStr) (v : List PyStr) :
    (q.map (fun kv => if kv.1 = k then (k, v) else kv)).map Prod.fst = q.map Prod.fst := by
  induction q with
  | nil => rfl
  | cons a t ih =>
    simp only [List.map_cons, ih, List.cons.injEq, and_true]
    split
    · rename_i h
      exact h.symm
    · rfl

lemma upsert_keys (q : List QEntry) (k : PyStr) (v : List PyStr) :
    (upsert q k v).map Prod.fst =
      if k ∈ q.map Prod.fst then q.map Prod.fst else q.map Prod.fst ++ [k] := by
  unfold upsert
  split
  · exact replace_keys q k v
  · simp

lemma replace_not_mem (q : List QEntry) (k : PyStr) (v : List PyStr)
    (hk : k ∉ q.map Prod.fst) :
    q.map (fun kv => if kv.1 = k then (k, v) else kv) = q := by
  induction q with
  | nil => rfl
  | cons a t ih =>
    obtain ⟨a1, a2⟩ := a
    have h : ¬a1 = k := by
      intro e
      exact hk (by simp [e])
    simp only [List.map_cons, if_neg h]
    rw [ih (fun m => hk (by simp [m]))]

lemma filter_not_mem (q : List QEntry) (k : PyStr) (hk : k ∉ q.map Prod.fst) :
    q.filter (fun kv => decide (kv.1 = k)) = [] := by
  induction q with
  | nil => rfl
  | cons a t ih =>
    obtain ⟨a1, a2⟩ := a
    have h : ¬a1 = k := by
      intro e
      exact hk (by simp [e])
    simp only [List.filter_cons]
    rw [if_neg (by simpa using h)]
    exact ih (fun m => hk (by simp [m]))

lemma plook_replace (q : List QEntry) (k : PyStr) (v : List PyStr)
    (hk : k ∈ q.map Prod.fst) :
    plook (q.map (fun kv => if kv.1 = k then (k, v) else kv)) k = some v := by
  induction q with
  | nil => simp at hk
  | cons a t ih =>
    obtain ⟨a1, a2⟩ := a
    by_cases h : a1 = k
    · subst h
      rw [List.map_cons, if_pos (show (a1, a2).1 = a1 from rfl)]
      simp [plook]
    · have hk2 : k ∈ t.map Prod.fst := by
        rw [List.map_cons] at hk
        rcases List.mem_cons.mp hk with h1 | h1
        · exact absurd h1.symm h
        · exact h1
      rw [List.map_cons, if_neg (show ¬(a1, a2).1 = k from h)]
      simp only [plook]
      rw [if_neg h]
      exact ih hk2

lemma plook_append_self (q : List QEntry) (k : PyStr) (v : List PyStr)
    (hk : k ∉ q.map Prod.fst) :
    plook (q ++ [(k, v)]) k = some v := by
  induction q with
  | nil => simp [plook]
  | cons a t ih =>
    obtain ⟨a1, a2⟩ := a
    have h : ¬a1 = k := by
      intro e
      exact hk (by simp [e])
    simp only [List.cons_append, plook, if_neg h]
    exact ih (fun m => hk (by simp [m]))

lemma plook_upsert (q : List QEntry) (k : PyStr) (v : List PyStr) :
    plook (upsert q k v) k = some v := by
  unfold upsert
  split
  · exact plook_replace q k v (by assumption)
  · exact plook_append_self q k v (by assumption)

lemma filter_key_upsert (q : List QEntry) (k : PyStr) (v : List PyStr)
    (hq : (q.map Prod.fst).Nodup) :
    (upsert q k v).filter (fun kv => decide (kv.1 = k)) = [(k, v)] := by
  unfold upsert
  split
  · rename_i hk
    induction q with
    | nil => simp at hk
    | cons a t ih =>
      obtain ⟨a1, a2⟩ := a
      rw [List.map_cons, List.nodup_cons] at hq
      by_cases h : a1 = k
      · subst h
        have ht : a1 ∉ t.map Prod.fst := by simpa using hq.1
        rw [List.map_cons, if_pos (show (a1, a2).1 = a1 from rfl),
          replace_not_mem t a1 v ht, List.filter_cons,
          if_pos (show (fun kv : QEntry => decide (kv.1 = a1)) (a1, v) = true by simp),
          filter_not_mem t a1 ht]
      · have hk2 : k ∈ t.map Prod.fst := by
          rw [List.map_cons] at hk
          rcases List.mem_cons.mp hk with h1 | h1
          · exact absurd h1.symm h
          · exact h1
        rw [List.map_cons, if_neg (show ¬(a1, a2).1 = k from h), List.filter_cons,
          if_neg (show ¬(fun kv : QEntry => decide (kv.1 = k)) (a1, a2) = true by
            simpa using h)]
        exact ih hq.2 hk2
  · rename_i hk
    rw [List.filter_append, filter_not_mem q k hk, List.filter_cons]
    simp

/-- C4.  Two dict assignments under the same key before the next drain leave
exactly one entry for that key in the queue, holding the second request (the
first is overwritten, never merged), and per-key uniqueness of the dict is
preserved, so the queue holds at most one pending request per `deploydir` at
all times. -/
theorem c4_last_writer_wins (q : List QEntry) (k : PyStr) (r1 r2 : List PyStr)
    (hq : (q.map Prod.fst).Nodup) :
    plook (upsert (upsert q k r1) k r2) k = some r2 ∧
    (upsert (upsert q k r1) k r2).filter (fun kv => decide (kv.1 = k)) = [(k, r2)] ∧
    ((upsert (upsert q k r1) k r2).map Prod.fst).Nodup := by
  have hq1 : ((upsert q k r1).map Prod.fst).Nodup := by
    rw [upsert_keys]
    by_cases h : k ∈ q.map Prod.fst
    · rwa [if_pos h]
    · rw [if_neg h]
      simp [List.nodup_append, hq, h]
  refine ⟨plook_upsert _ _ _, filter_key_upsert _ _ _ hq1, ?_⟩
  rw [upsert_keys]
  by_cases h : k ∈ (upsert q k r1).map Prod.fst
  · rwa [if_pos h]
  · rw [if_neg h]
    simp [List.nodup_append, hq1, h]

/-- C4, witness: starting from the empty queue, upserting two requests under
`"foo.apache.org"` leaves exactly one entry, holding the second request. -/
theorem c4_last_writer_wins_witness :
    ((([] : List QEntry).map Prod.fst).Nodup) ∧
    (plook (upsert (upsert [] (pl "foo.apache.org") [pl "src1"]) (pl "foo.apache.org")
        [pl "src2"]) (pl "foo.apache.org") = some [pl "src2"] ∧
      (upsert (upsert [] (pl "foo.apache.org") [pl "src1"]) (pl "foo.apache.org")
        [pl "src2"]).filter (fun kv => decide (kv.1 = pl "foo.apache.org"))
        = [(pl "foo.apache.org", [pl "src2"])] ∧
      ((upsert (upsert [] (pl "foo.apache.org") [pl "src1"]) (pl "foo.apache.org")
        [pl "src2"]).map Prod.fst).Nodup) :=
  ⟨by decide, c4_last_writer_wins [] (pl "foo.apache.org") [pl "src1"] [pl "src2"] (by decide)⟩

/-! ## C5: the drain swap is not atomic -/

/-- C5, counterexample.  `XPQ = PUBSUB_QUEUE; PUBSUB_QUEUE = {}` is not one
atomic step: in the schedule where the listener loads the dict reference, a
full drain (snapshot, reset, iteration) runs, and only then the listener's
store lands, the request is written into the already-iterated old dict — it is
in no processed snapshot and not in the live queue, i.e. the upsert is lost. -/
theorem c5_counterexample :
    (raceRun (pl "foo.apache.org") [pl "src"]
      [RaceEv.lRead, RaceEv.dSnap, RaceEv.dReset, RaceEv.dProc, RaceEv.lWrite]).processed
        = [[]] ∧
    (raceRun (pl "foo.apache.org") [pl "src"]
      [RaceEv.lRead, RaceEv.dSnap, RaceEv.dReset, RaceEv.dProc, RaceEv.lWrite]).heap.getD
      (raceRun (pl "foo.apache.org") [pl "src"]
        [RaceEv.lRead, RaceEv.dSnap, RaceEv.dReset, RaceEv.dProc, RaceEv.lWrite]).qRef []
        = [] ∧
    (raceRun (pl "foo.apache.org") [pl "src"]
      [RaceEv.lRead, RaceEv.dSnap, RaceEv.dReset, RaceEv.dProc, RaceEv.lWrite]).heap.getD 0 []
        = [(pl "foo.apache.org", [pl "src"])] ∧
    keyOccurrences (pl "foo.apache.org")
      (raceRun (pl "foo.apache.org") [pl "src"]
        [RaceEv.lRead, RaceEv.dSnap, RaceEv.dReset, RaceEv.dProc, RaceEv.lWrite]) = 0 := by
  decide

/-- C5, amended.  When the listener's load and store are adjacent (an atomic
upsert), then wherever the upsert falls relative to the drain's
snapshot/reset/iteration steps, the request ends up in exactly one snapshot
(counting the live queue, which the next drain will snapshot); but the code's
upsert is two micro-steps, and the schedule that interleaves a complete drain
between them loses the request entirely. -/
theorem c5_drain_amended (k : PyStr) (v : List PyStr) :
    keyOccurrences k (raceRun k v
      [RaceEv.lRead, RaceEv.lWrite, RaceEv.dSnap, RaceEv.dReset, RaceEv.dProc]) = 1 ∧
    keyOccurrences k (raceRun k v
      [RaceEv.dSnap, RaceEv.lRead, RaceEv.lWrite, RaceEv.dReset, RaceEv.dProc]) = 1 ∧
    keyOccurrences k (raceRun k v
      [RaceEv.dSnap, RaceEv.dReset, RaceEv.lRead, RaceEv.lWrite, RaceEv.dProc]) = 1 ∧
    keyOccurrences k (raceRun k v
      [RaceEv.dSnap, RaceEv.dReset, RaceEv.dProc, RaceEv.lRead, RaceEv.lWrite]) = 1 ∧
    keyOccurrences k (raceRun k v
      [RaceEv.lRead, RaceEv.dSnap, RaceEv.dReset, RaceEv.dProc, RaceEv.lWrite]) = 0 := by
  refine ⟨?_, ?_, ?_, ?_, ?_⟩ <;>
    simp [raceRun, raceInit, raceStep, upsert, keyOccurrences, List.count_cons]

/-! ## C6: executor error reporting (code bug in `do_git_pull`) -/

/-- C6.  `checkout_git_repo` and `do_svn_up` catch both process failure and
timeout and return normally; but `do_git_pull`'s `TimeoutExpired` handler
formats `% source` with no `source` in scope, so a fetch timeout raises
`NameError` out of the operation instead of reporting a structured failure. -/
theorem c6_executor_error_handling (branch : PyStr) :
    (∀ isDir cloneOut, (checkout_git_repo isDir cloneOut).raises = none) ∧
    (∀ svnOut, (do_svn_up svnOut).raises = none) ∧
    (do_git_pull branch ProcOutcome.procError).raises = none ∧
    (do_git_pull branch ProcOutcome.ok).raises = none ∧
    (do_git_pull branch ProcOutcome.timeout).raises = some PyExc.nameError := by
  exact ⟨fun _ _ => rfl, fun _ => rfl, rfl, rfl, rfl⟩

/-! ## C7: timeouts on external process invocations -/

/-- C7, counterexample.  The `git reset --hard origin/<branch>` invocation of
the incremental-update path carries no `timeout=` keyword, unlike clone,
fetch and `svn up`. -/
theorem c7_counterexample :
    (reset_invocation (pl "asf-site")).timeoutSecs = none ∧
    reset_invocation (pl "asf-site") ∈
      (do_git_pull (pl "asf-site") ProcOutcome.ok).invocations := by
  exact ⟨rfl, by simp [do_git_pull]⟩

/-- C7, amended.  The clone, fetch and `svn up` invocations all run under the
fixed `CHECKOUT_TIMEOUT` of 180 seconds, but the `git reset --hard` invocation
of the incremental update runs with no timeout at all. -/
theorem c7_timeouts_amended (branch source path : PyStr) :
    (clone_invocation branch source path).timeoutSecs = some CHECKOUT_TIMEOUT ∧
    (fetch_invocation branch).timeoutSecs = some CHECKOUT_TIMEOUT ∧
    svnup_invocation.timeoutSecs = some CHECKOUT_TIMEOUT ∧
    (reset_invocation branch).timeoutSecs = none ∧
    CHECKOUT_TIMEOUT = 180 := by
  exact ⟨rfl, rfl, rfl, rfl, rfl⟩

/-! ## C8: purge conditions -/

/-- C8, counterexample.  A request whose deploy dir is `".."` fails validation
— `deploy_site` logs and returns without deploying — yet `deploy.run` still
issues the purge for its hostname, contradicting "never after a validation
rejection". -/
theorem c8_counterexample :
    deploy_site_action (pl "..") (pl "https://gitbox.apache.org/repos/asf/foo.git")
        (pl "asf-site") DeployType.website ⟨false, false, none⟩ = Action.rejectedDir ∧
    run_item true true (pl "..") (pl "https://gitbox.apache.org/repos/asf/foo.git")
        (pl "asf-site") (pl "foo.apache.org") DeployType.website ⟨false, false, none⟩
        ProcOutcome.ok = [pl "foo.apache.org"] := by decide

/-- C8, amended.  When publishing is enabled and a Fastly key is present,
`deploy.run` issues the purges after every `deploy_site` call that returns
without raising — successful deploys, but equally no-ops, validation
rejections and swallowed VCS failures; the purge set is the blog-subdomain
hostname first for blog deployments, then `hostname`, then `apache.org` when
the hostname is `www.apache.org`.  No purge is issued when an exception
escapes `deploy_site` or when publishing or the key is absent. -/
theorem c8_purge_amended (publishFlag fastlyKey : Bool)
    (deploydir source branch hostname : PyStr) (dt : DeployType) (disk : DiskState)
    (fetchOut : ProcOutcome) :
    (deploy_site_raises (deploy_site_action deploydir source branch dt disk) fetchOut = false →
      publishFlag = true → fastlyKey = true →
      run_item publishFlag fastlyKey deploydir source branch hostname dt disk fetchOut =
        (if dt = .blog then [pyreplace deploydir (pl ".blog") ++ pl ".blog.apache.org"] else [])
          ++ [hostname]
          ++ (if hostname = pl "www.apache.org" then [pl "apache.org"] else [])) ∧
    (deploy_site_raises (deploy_site_action deploydir source branch dt disk) fetchOut = true →
      run_item publishFlag fastlyKey deploydir source branch hostname dt disk fetchOut = []) ∧
    (publishFlag = false ∨ fastlyKey = false →
      run_item publishFlag fastlyKey deploydir source branch hostname dt disk fetchOut = []) := by
  refine ⟨?_, ?_, ?_⟩
  · intro hr hp hk
    subst hp
    subst hk
    simp [run_item, hr]
  · intro hr
    simp [run_item, hr]
  · intro h
    have hb : (publishFlag && fastlyKey) = false := by
      rcases h with h | h <;> simp [h]
    simp [run_item, hb]

/-- C8, witness: with publishing enabled and a key present, a blog deployment
to `demo.blog` whose `deploy_site` call returns normally purges the blog
subdomain and then the hostname. -/
theorem c8_purge_amended_witness :
    (deploy_site_raises (deploy_site_action (pl "demo.blog")
        (pl "https://gitbox.apache.org/repos/asf/demo-site.git") (pl "asf-site")
        DeployType.blog ⟨false, false, none⟩) ProcOutcome.ok = false) ∧
    run_item true true (pl "demo.blog") (pl "https://gitbox.apache.org/repos/asf/demo-site.git")
        (pl "asf-site") (pl "demo.apache.org") DeployType.blog ⟨false, false, none⟩
        ProcOutcome.ok =
      [pl "demo.blog.apache.org", pl "demo.apache.org"] := by
  refine ⟨by decide, ?_⟩
  have h := (c8_purge_amended true true (pl "demo.blog")
    (pl "https://gitbox.apache.org/repos/asf/demo-site.git") (pl "asf-site")
    (pl "demo.apache.org") DeployType.blog ⟨false, false, none⟩ ProcOutcome.ok).1
    (by decide) rfl rfl
  rw [h]
  decide

/-! ## C9: listener error handling -/

/-- C9, counterexample.  The payload `{"publish": 5}` is a well-formed message
whose normalization raises `AttributeError` (`5` has no `.get`); `listen`
catches only `ValueError`, so this escapes and terminates the consumption
loop, contradicting "no error raised while normalizing any single message
terminates the event-consumption loop". -/
theorem c9_counterexample :
    listen_normalize true [] (JVal.jobj [(pl "publish", JVal.jnum 5)]) =
      Except.error PyExc.attributeError ∧
    listen_step true [] (JVal.jobj [(pl "publish", JVal.jnum 5)]) =
      LoopStep.crash PyExc.attributeError := by
  exact ⟨rfl, rfl⟩

/-- C9, amended.  The loop body is guarded by `except ValueError` only: a
normalization error crashes the consumption loop exactly when it is not a
`ValueError`, and a well-formed publish payload is normalized and enqueued
with the loop continuing. -/
theorem c9_listener_amended :
    (∀ (publishFlag : Bool) (svnconfig : List (PyStr × List (PyStr × PyStr)))
        (payload : JVal) (e : PyExc),
      listen_normalize publishFlag svnconfig payload = Except.error e →
        (e = PyExc.valueError → listen_step publishFlag svnconfig payload = LoopStep.cont none) ∧
        (e ≠ PyExc.valueError → listen_step publishFlag svnconfig payload = LoopStep.crash e)) ∧
    listen_step true [] (JVal.jobj [(pl "publish", JVal.jobj
        [(pl "project", JVal.jstr (pl "foo")),
          (pl "source", JVal.jstr (pl "https://gitbox.apache.org/repos/asf/foo.git")),
          (pl "branch", JVal.jstr (pl "asf-site"))])]) =
      LoopStep.cont (some (JVal.jstr (pl "foo.apache.org"),
        [JVal.jstr (pl "https://gitbox.apache.org/repos/asf/foo.git"),
          JVal.jstr (pl "asf-site"), JVal.jstr (pl "root"),
          JVal.jstr (pl "foo.apache.org"), JVal.jstr (pl "website")])) := by
  constructor
  · intro publishFlag svnconfig payload e he
    constructor
    · intro hve
      subst hve
      simp [listen_step, he]
    · intro hne
      rw [listen_step, he]
      cases e with
      | valueError => exact absurd rfl hne
      | typeError => rfl
      | attributeError => rfl
      | keyError => rfl
      | nameError => rfl
  · rfl

/-- C9, witness: the amended characterization applied to the concrete payload
`{"publish": 5}`, whose normalization error is an `AttributeError` and
therefore crashes the loop. -/
theorem c9_listener_amended_witness :
    listen_normalize true [] (JVal.jobj [(pl "publish", JVal.jnum 5)]) =
      Except.error PyExc.attributeError ∧
    PyExc.attributeError ≠ PyExc.valueError ∧
    listen_step true [] (JVal.jobj [(pl "publish", JVal.jnum 5)]) =
      LoopStep.crash PyExc.attributeError :=
  ⟨rfl, by decide,
    (c9_listener_amended.1 true [] (JVal.jobj [(pl "publish", JVal.jnum 5)])
      PyExc.attributeError rfl).2 (by decide)⟩

/-! ## C10: a failed fresh checkout is not rolled back -/

/-- C10.  `checkout_git_repo` on an existing directory removes the tree before
cloning; a failing or timed-out clone is only logged (nothing is re-raised and
nothing restores the removed tree), so after a failed fresh checkout the
target directory is absent: the directory exists afterwards exactly when the
clone succeeded. -/
theorem c10_checkout_not_atomic (cloneOut : ProcOutcome) :
    (checkout_git_repo true cloneOut).removedExisting = true ∧
    (checkout_git_repo true cloneOut).raises = none ∧
    ((checkout_git_repo true cloneOut).dirAfter = true ↔ cloneOut = ProcOutcome.ok) := by
  refine ⟨rfl, rfl, ?_⟩
  cases cloneOut <;> simp [checkout_git_repo]

end Staged
